import Mathlib

/-! Shallow embedding of the globe-geometry core of the NoahProject repository:
the lat/lon spherical projector and its inverse (hexagonUtils section of
src/components/Earth.tsx), the greedy hexagon overlap filter together with the
curated continent and snow catalogs (Earth component), the biome color
classification, and the geodesic hexagon grid generator.  Real-number
arithmetic stands in for JavaScript doubles; `Complex.arg` stands in for
`Math.atan2`. -/

namespace NoahProject

open Real

open scoped Classical

noncomputable section

/-- The (x, y, z) components of a `THREE.Vector3`. -/
structure Vector3 where
  x : ℝ
  y : ℝ
  z : ℝ

/-- `THREE.Vector3.prototype.distanceTo`: the Euclidean distance between two
vectors. -/
def distanceTo (a b : Vector3) : ℝ :=
  Real.sqrt ((a.x - b.x) ^ 2 + (a.y - b.y) ^ 2 + (a.z - b.z) ^ 2)

/-- `THREE.Vector3.prototype.length`. -/
def length (v : Vector3) : ℝ := Real.sqrt (v.x ^ 2 + v.y ^ 2 + v.z ^ 2)

/-- `latLonToVector3(lat, lon, radius)` (Earth.tsx, hexagonUtils section,
lines 1170-1179): the projector of the spec. -/
def latLonToVector3 (lat lon radius : ℝ) : Vector3 :=
  let phi := (90 - lat) * (π / 180)
  let theta := (lon + 180) * (π / 180)
  { x := -(radius * Real.sin phi * Real.cos theta)
    z := radius * Real.sin phi * Real.sin theta
    y := radius * Real.cos phi }

/-- `Math.atan2 y x`, embedded as the argument of the complex number
`x + y*I` (the same piecewise arctangent convention, valued in `(-π, π]`). -/
def atan2 (y x : ℝ) : ℝ := Complex.arg ⟨x, y⟩

/-- The JavaScript remainder `a % b` on numbers: `a - b * t` with `t` the
quotient `a / b` truncated toward zero. -/
def jsMod (a b : ℝ) : ℝ :=
  a - b * (if 0 ≤ a / b then (⌊a / b⌋ : ℝ) else (⌈a / b⌉ : ℝ))

/-- The `{ lat, lon }` record returned by `vector3ToLatLon`. -/
structure GeoPoint where
  lat : ℝ
  lon : ℝ

/-- `vector3ToLatLon(vector)` (Earth.tsx, hexagonUtils section,
lines 1184-1188): the inverse projector of the spec. -/
def vector3ToLatLon (v : Vector3) : GeoPoint where
  lat := 90 - Real.arccos (v.y / length v) * 180 / π
  lon := jsMod (atan2 v.z (-v.x) * 180 / π + 180) 360 - 180

/-- A curated catalog entry `{ lat, lon, size, color }`. -/
structure Continent where
  lat : ℝ
  lon : ℝ
  size : ℝ
  color : String

/-- `areHexagonsTooClose` (Earth.tsx lines 507-513), as a proposition on the
real-number embedding. -/
def areHexagonsTooClose (lat1 lon1 size1 lat2 lon2 size2 : ℝ) : Prop :=
  let pos1 := latLonToVector3 lat1 lon1 1
  let pos2 := latLonToVector3 lat2 lon2 1
  let distance := distanceTo pos1 pos2
  let minDistance := (size1 + size2) * 0.9
  distance < minDistance

/-- One iteration of the overlap-filter loop (Earth.tsx lines 1019-1033):
the candidate is appended to the accepted list unless it is too close to some
already-accepted region (the inner loop of the source sets `overlaps` and breaks
at the first too-close accepted region, which is the existential below). -/
def filterStep (acc : List Continent) (c : Continent) : List Continent :=
  if ∃ e ∈ acc, areHexagonsTooClose c.lat c.lon c.size e.lat e.lon e.size then acc
  else acc ++ [c]

/-- The curated-mode overlap filter (Earth.tsx lines 1017-1033): the
`filteredContinents` accumulation over the candidate list in input order. -/
def filterContinents (l : List Continent) : List Continent := l.foldl filterStep []

/-- The Euclidean distance between the unit-sphere projections of two catalog
entry centers (the quantity `areHexagonsTooClose` compares). -/
def centerDist (a b : Continent) : ℝ :=
  distanceTo (latLonToVector3 a.lat a.lon 1) (latLonToVector3 b.lat b.lon 1)

/-- The snow hexagons of the north-pole loop (Earth.tsx lines 1046-1050):
`for (lon = -180; lon < 180; lon += 30)` runs for `lon = -180 + 30*j`,
`j = 0..11`; the inner `for (lat = 70; lat <= 85; lat += 8)` runs for
`lat = 70 + 8*k`, `k = 0..1` (70 and 78; the next value 86 exceeds 85). -/
def snowHexagonsNorth : List Continent :=
  (List.range 12).flatMap fun (j : ℕ) =>
    (List.range 2).map fun (k : ℕ) =>
      { lat := 70 + 8 * k, lon := -180 + 30 * j, size := 0.12, color := "#FFFFFF" }

/-- The "South pole snow - enhanced coverage" loop (Earth.tsx lines 1052-1056):
`for (lon = -180; lon < 180; lon += 20)` iterates 18 times, but the inner
loop `for (lat = -85; lat >= -60; lat -= 6)` has a start value `-85` that
already violates its guard `lat >= -60`, so its body never executes and every
outer iteration contributes the empty list. -/
def snowHexagonsSouthA : List Continent :=
  (List.range 18).flatMap fun _ => ([] : List Continent)

/-- The "Additional south pole coverage" loop (Earth.tsx lines 1058-1062):
`for (lon = -180; lon < 180; lon += 15)` runs for `lon = -180 + 15*j`,
`j = 0..23`; the inner `for (lat = -70; lat >= -80; lat -= 5)` runs for
`lat = -70 - 5*k`, `k = 0..2` (that is -70, -75, -80). -/
def snowHexagonsSouthB : List Continent :=
  (List.range 24).flatMap fun (j : ℕ) =>
    (List.range 3).map fun (k : ℕ) =>
      { lat := -70 - 5 * k, lon := -180 + 15 * j, size := 0.13, color := "#FFFFFF" }

/-- `snowHexagons` (Earth.tsx lines 1043-1064): the pushes of the three polar
loops in program order. -/
def snowHexagons : List Continent :=
  snowHexagonsNorth ++ snowHexagonsSouthA ++ snowHexagonsSouthB

/-- Entries 1-40 of the curated candidate catalog `allContinents`
(Earth.tsx lines 593-1015), in source order. -/
def allContinentsPart0 : List Continent := [
  ⟨42, -70, 0.15, "#FFFF00"⟩,
  ⟨38, -77, 0.14, "#FFFF00"⟩,
  ⟨32, -80, 0.15, "#FFFF00"⟩,
  ⟨28, -82, 0.14, "#FFFF00"⟩,
  ⟨26, -81, 0.14, "#FFFF00"⟩,
  ⟨34, -119, 0.15, "#FFFF00"⟩,
  ⟨33, -117, 0.14, "#FFFF00"⟩,
  ⟨22, -80, 0.15, "#FFFF00"⟩,
  ⟨18, -77, 0.14, "#FFFF00"⟩,
  ⟨12, -70, 0.15, "#FFFF00"⟩,
  ⟨51, 1, 0.14, "#FFFF00"⟩,
  ⟨47, -2, 0.14, "#FFFF00"⟩,
  ⟨41, 2, 0.15, "#FFFF00"⟩,
  ⟨37, -8, 0.14, "#FFFF00"⟩,
  ⟨41, 12, 0.15, "#FFFF00"⟩,
  ⟨39, 22, 0.14, "#FFFF00"⟩,
  ⟨36, 28, 0.14, "#FFFF00"⟩,
  ⟨14, 18, 0.14, "#FFFF00"⟩,
  ⟨6, 3, 0.15, "#FFFF00"⟩,
  ⟨-4, 15, 0.14, "#FFFF00"⟩,
  ⟨26, 119, 0.15, "#FFFF00"⟩,
  ⟨21, 113, 0.14, "#FFFF00"⟩,
  ⟨13, 100, 0.15, "#FFFF00"⟩,
  ⟨1, 104, 0.14, "#FFFF00"⟩,
  ⟨-27, 153, 0.15, "#FFFF00"⟩,
  ⟨-16, 145, 0.14, "#FFFF00"⟩,
  ⟨-12, 130, 0.15, "#FFFF00"⟩,
  ⟨-3, -38, 0.14, "#FFFF00"⟩,
  ⟨-8, -35, 0.15, "#FFFF00"⟩,
  ⟨-12, -77, 0.14, "#FFFF00"⟩,
  ⟨-33, -71, 0.14, "#FFFF00"⟩,
  ⟨55, -110, 0.18, "#66BB6A"⟩,
  ⟨50, -100, 0.20, "#66BB6A"⟩,
  ⟨45, -95, 0.18, "#81C784"⟩,
  ⟨40, -100, 0.17, "#66BB6A"⟩,
  ⟨35, -110, 0.16, "#66BB6A"⟩,
  ⟨30, -85, 0.15, "#A5D6A7"⟩,
  ⟨25, -105, 0.15, "#66BB6A"⟩,
  ⟨20, -100, 0.12, "#66BB6A"⟩,
  ⟨45, -75, 0.14, "#81C784"⟩
]

/-- Entries 41-67 of the curated candidate catalog `allContinents`
(Earth.tsx lines 593-1015), in source order. -/
def allContinentsPart1 : List Continent := [
  ⟨50, -70, 0.13, "#66BB6A"⟩,
  ⟨40, -80, 0.15, "#81C784"⟩,
  ⟨35, -90, 0.14, "#66BB6A"⟩,
  ⟨-5, -55, 0.17, "#9CCC65"⟩,
  ⟨-10, -60, 0.18, "#9CCC65"⟩,
  ⟨-15, -50, 0.16, "#AED581"⟩,
  ⟨-20, -50, 0.15, "#AED581"⟩,
  ⟨-25, -65, 0.16, "#AED581"⟩,
  ⟨-30, -55, 0.15, "#9CCC65"⟩,
  ⟨-35, -60, 0.14, "#9CCC65"⟩,
  ⟨-40, -65, 0.13, "#AED581"⟩,
  ⟨55, 0, 0.15, "#4CAF50"⟩,
  ⟨50, 10, 0.14, "#4CAF50"⟩,
  ⟨45, 20, 0.12, "#66BB6A"⟩,
  ⟨55, 15, 0.13, "#66BB6A"⟩,
  ⟨50, 5, 0.13, "#66BB6A"⟩,
  ⟨45, 10, 0.12, "#81C784"⟩,
  ⟨20, 10, 0.17, "#388E3C"⟩,
  ⟨15, 15, 0.18, "#388E3C"⟩,
  ⟨10, 20, 0.20, "#388E3C"⟩,
  ⟨5, 35, 0.16, "#4CAF50"⟩,
  ⟨0, 30, 0.18, "#4CAF50"⟩,
  ⟨-5, 20, 0.15, "#66BB6A"⟩,
  ⟨-10, 25, 0.15, "#66BB6A"⟩,
  ⟨-5, 15, 0.14, "#66BB6A"⟩,
  ⟨5, 10, 0.14, "#388E3C"⟩,
  ⟨0, 5, 0.13, "#4CAF50"⟩
]

/-- Entry 68 of the curated candidate catalog `allContinents`
(Earth.tsx lines 593-1015): the first Asia entry, kept as its own part so
that the overlap-filter acceptance proof can split the catalog around it. -/
def allContinentsPart2 : List Continent := [
  ⟨60, 95, 0.20, "#66BB6A"⟩
]

/-- Entries 69-108 of the curated candidate catalog `allContinents`
(Earth.tsx lines 593-1015), in source order. -/
def allContinentsPart3 : List Continent := [
  ⟨55, 100, 0.22, "#66BB6A"⟩,
  ⟨50, 85, 0.18, "#81C784"⟩,
  ⟨45, 110, 0.20, "#81C784"⟩,
  ⟨40, 95, 0.17, "#66BB6A"⟩,
  ⟨35, 105, 0.18, "#66BB6A"⟩,
  ⟨30, 120, 0.16, "#A5D6A7"⟩,
  ⟨25, 90, 0.18, "#A5D6A7"⟩,
  ⟨20, 105, 0.15, "#66BB6A"⟩,
  ⟨55, 115, 0.19, "#81C784"⟩,
  ⟨50, 125, 0.17, "#66BB6A"⟩,
  ⟨45, 100, 0.18, "#81C784"⟩,
  ⟨40, 110, 0.16, "#66BB6A"⟩,
  ⟨35, 90, 0.17, "#A5D6A7"⟩,
  ⟨30, 100, 0.15, "#66BB6A"⟩,
  ⟨25, 115, 0.16, "#A5D6A7"⟩,
  ⟨-20, 125, 0.15, "#8BC34A"⟩,
  ⟨-25, 135, 0.16, "#8BC34A"⟩,
  ⟨-30, 145, 0.14, "#9CCC65"⟩,
  ⟨-20, 140, 0.14, "#8BC34A"⟩,
  ⟨-25, 120, 0.13, "#9CCC65"⟩,
  ⟨25, -80, 0.12, "#66BB6A"⟩,
  ⟨10, -75, 0.11, "#81C784"⟩,
  ⟨60, -150, 0.13, "#66BB6A"⟩,
  ⟨40, 140, 0.14, "#66BB6A"⟩,
  ⟨20, -70, 0.12, "#81C784"⟩,
  ⟨15, -60, 0.11, "#66BB6A"⟩,
  ⟨30, 50, 0.13, "#66BB6A"⟩,
  ⟨25, 45, 0.12, "#81C784"⟩,
  ⟨35, 70, 0.14, "#66BB6A"⟩,
  ⟨40, 60, 0.13, "#81C784"⟩,
  ⟨-15, -45, 0.12, "#9CCC65"⟩,
  ⟨-5, -40, 0.11, "#AED581"⟩,
  ⟨40, -110, 0.13, "#F4A460"⟩,
  ⟨35, -105, 0.13, "#F4A460"⟩,
  ⟨30, -100, 0.13, "#F4A460"⟩,
  ⟨25, -95, 0.12, "#DEB887"⟩,
  ⟨20, -105, 0.11, "#D2B48C"⟩,
  ⟨15, -100, 0.11, "#DEB887"⟩,
  ⟨20, -95, 0.11, "#F4A460"⟩,
  ⟨15, -90, 0.10, "#DEB887"⟩
]

/-- Entries 109-148 of the curated candidate catalog `allContinents`
(Earth.tsx lines 593-1015), in source order. -/
def allContinentsPart4 : List Continent := [
  ⟨0, -80, 0.12, "#F4A460"⟩,
  ⟨-5, -75, 0.12, "#F4A460"⟩,
  ⟨-10, -70, 0.12, "#F4A460"⟩,
  ⟨-15, -75, 0.11, "#DEB887"⟩,
  ⟨-20, -70, 0.11, "#D2B48C"⟩,
  ⟨-25, -65, 0.11, "#DEB887"⟩,
  ⟨-30, -70, 0.10, "#D2B48C"⟩,
  ⟨35, 5, 0.12, "#F4A460"⟩,
  ⟨30, 10, 0.12, "#F4A460"⟩,
  ⟨25, 15, 0.12, "#F4A460"⟩,
  ⟨20, 10, 0.13, "#DEB887"⟩,
  ⟨15, 5, 0.11, "#D2B48C"⟩,
  ⟨10, 0, 0.11, "#DEB887"⟩,
  ⟨5, 10, 0.11, "#D2B48C"⟩,
  ⟨0, 5, 0.11, "#DEB887"⟩,
  ⟨-5, 10, 0.10, "#D2B48C"⟩,
  ⟨30, 0, 0.11, "#F4A460"⟩,
  ⟨25, 5, 0.11, "#DEB887"⟩,
  ⟨20, 0, 0.11, "#D2B48C"⟩,
  ⟨40, 40, 0.12, "#F4A460"⟩,
  ⟨35, 45, 0.12, "#F4A460"⟩,
  ⟨30, 50, 0.12, "#F4A460"⟩,
  ⟨25, 55, 0.11, "#DEB887"⟩,
  ⟨20, 50, 0.11, "#D2B48C"⟩,
  ⟨25, 45, 0.11, "#DEB887"⟩,
  ⟨30, 40, 0.11, "#D2B48C"⟩,
  ⟨45, 95, 0.13, "#F4A460"⟩,
  ⟨40, 95, 0.13, "#F4A460"⟩,
  ⟨35, 100, 0.13, "#F4A460"⟩,
  ⟨40, 90, 0.12, "#DEB887"⟩,
  ⟨45, 85, 0.12, "#D2B48C"⟩,
  ⟨35, 90, 0.12, "#DEB887"⟩,
  ⟨30, 95, 0.11, "#D2B48C"⟩,
  ⟨-10, 130, 0.12, "#F4A460"⟩,
  ⟨-15, 125, 0.12, "#F4A460"⟩,
  ⟨-20, 120, 0.12, "#F4A460"⟩,
  ⟨-25, 130, 0.11, "#DEB887"⟩,
  ⟨-30, 125, 0.11, "#D2B48C"⟩,
  ⟨-10, 135, 0.11, "#DEB887"⟩,
  ⟨-15, 135, 0.11, "#D2B48C"⟩
]

/-- Entries 149-188 of the curated candidate catalog `allContinents`
(Earth.tsx lines 593-1015), in source order. -/
def allContinentsPart5 : List Continent := [
  ⟨-20, 130, 0.11, "#DEB887"⟩,
  ⟨35, -120, 0.11, "#DEB887"⟩,
  ⟨30, -120, 0.11, "#DEB887"⟩,
  ⟨25, -110, 0.10, "#D2B48C"⟩,
  ⟨20, -105, 0.10, "#DEB887"⟩,
  ⟨45, -70, 0.11, "#DEB887"⟩,
  ⟨40, -75, 0.10, "#D2B48C"⟩,
  ⟨15, -90, 0.11, "#DEB887"⟩,
  ⟨10, -80, 0.11, "#DEB887"⟩,
  ⟨5, -75, 0.10, "#D2B48C"⟩,
  ⟨0, -80, 0.10, "#DEB887"⟩,
  ⟨-5, -85, 0.10, "#D2B48C"⟩,
  ⟨-10, -80, 0.10, "#DEB887"⟩,
  ⟨55, 5, 0.11, "#DEB887"⟩,
  ⟨50, 10, 0.11, "#DEB887"⟩,
  ⟨45, 5, 0.10, "#D2B48C"⟩,
  ⟨40, 0, 0.11, "#D2B48C"⟩,
  ⟨50, -5, 0.10, "#DEB887"⟩,
  ⟨20, 15, 0.11, "#DEB887"⟩,
  ⟨15, 30, 0.11, "#DEB887"⟩,
  ⟨10, 35, 0.10, "#D2B48C"⟩,
  ⟨5, 30, 0.10, "#DEB887"⟩,
  ⟨0, 15, 0.10, "#D2B48C"⟩,
  ⟨-5, 10, 0.10, "#DEB887"⟩,
  ⟨30, 35, 0.11, "#DEB887"⟩,
  ⟨25, 50, 0.11, "#DEB887"⟩,
  ⟨25, 60, 0.11, "#DEB887"⟩,
  ⟨20, 70, 0.10, "#D2B48C"⟩,
  ⟨15, 75, 0.10, "#DEB887"⟩,
  ⟨10, 80, 0.10, "#D2B48C"⟩,
  ⟨35, 125, 0.11, "#DEB887"⟩,
  ⟨30, 130, 0.11, "#DEB887"⟩,
  ⟨25, 135, 0.10, "#D2B48C"⟩,
  ⟨20, 120, 0.10, "#DEB887"⟩,
  ⟨15, 125, 0.10, "#D2B48C"⟩,
  ⟨-15, 140, 0.11, "#DEB887"⟩,
  ⟨-20, 145, 0.10, "#D2B48C"⟩,
  ⟨-25, 150, 0.10, "#DEB887"⟩,
  ⟨-10, 145, 0.10, "#D2B48C"⟩,
  ⟨28, -102, 0.12, "#F4A460"⟩
]

/-- Entries 189-228 of the curated candidate catalog `allContinents`
(Earth.tsx lines 593-1015), in source order. -/
def allContinentsPart6 : List Continent := [
  ⟨32, -108, 0.12, "#DEB887"⟩,
  ⟨-8, -72, 0.11, "#F4A460"⟩,
  ⟨-12, -68, 0.11, "#DEB887"⟩,
  ⟨28, 8, 0.11, "#F4A460"⟩,
  ⟨22, 12, 0.11, "#DEB887"⟩,
  ⟨18, 8, 0.10, "#D2B48C"⟩,
  ⟨12, 2, 0.10, "#DEB887"⟩,
  ⟨38, 48, 0.11, "#F4A460"⟩,
  ⟨33, 52, 0.11, "#DEB887"⟩,
  ⟨42, 92, 0.12, "#F4A460"⟩,
  ⟨38, 88, 0.11, "#DEB887"⟩,
  ⟨-12, 128, 0.11, "#F4A460"⟩,
  ⟨-18, 123, 0.11, "#DEB887"⟩,
  ⟨-28, 128, 0.10, "#D2B48C"⟩,
  ⟨35, -95, 0.14, "#87CEEB"⟩,
  ⟨30, -90, 0.14, "#87CEEB"⟩,
  ⟨25, -85, 0.13, "#B0E0E6"⟩,
  ⟨20, -80, 0.12, "#87CEEB"⟩,
  ⟨15, -75, 0.12, "#B0E0E6"⟩,
  ⟨10, -70, 0.13, "#B0E0E6"⟩,
  ⟨5, -75, 0.12, "#87CEEB"⟩,
  ⟨0, -70, 0.12, "#B0E0E6"⟩,
  ⟨55, -5, 0.13, "#87CEEB"⟩,
  ⟨50, 0, 0.13, "#87CEEB"⟩,
  ⟨50, 5, 0.12, "#B0E0E6"⟩,
  ⟨45, 5, 0.12, "#B0E0E6"⟩,
  ⟨40, 10, 0.12, "#87CEEB"⟩,
  ⟨35, 15, 0.12, "#B0E0E6"⟩,
  ⟨30, 20, 0.11, "#87CEEB"⟩,
  ⟨20, 35, 0.12, "#87CEEB"⟩,
  ⟨15, 40, 0.13, "#87CEEB"⟩,
  ⟨10, 45, 0.12, "#B0E0E6"⟩,
  ⟨30, 45, 0.13, "#87CEEB"⟩,
  ⟨25, 50, 0.13, "#87CEEB"⟩,
  ⟨20, 55, 0.12, "#B0E0E6"⟩,
  ⟨35, 125, 0.14, "#87CEEB"⟩,
  ⟨30, 120, 0.14, "#87CEEB"⟩,
  ⟨30, 125, 0.13, "#B0E0E6"⟩,
  ⟨25, 125, 0.13, "#B0E0E6"⟩,
  ⟨20, 110, 0.12, "#87CEEB"⟩
]

/-- Entries 229-268 of the curated candidate catalog `allContinents`
(Earth.tsx lines 593-1015), in source order. -/
def allContinentsPart7 : List Continent := [
  ⟨15, 115, 0.12, "#B0E0E6"⟩,
  ⟨10, 110, 0.12, "#87CEEB"⟩,
  ⟨-5, 105, 0.13, "#87CEEB"⟩,
  ⟨-10, 110, 0.13, "#87CEEB"⟩,
  ⟨-5, 115, 0.12, "#B0E0E6"⟩,
  ⟨0, 120, 0.12, "#87CEEB"⟩,
  ⟨-15, 150, 0.13, "#87CEEB"⟩,
  ⟨-20, 150, 0.13, "#87CEEB"⟩,
  ⟨-15, 145, 0.12, "#B0E0E6"⟩,
  ⟨-10, 140, 0.12, "#87CEEB"⟩,
  ⟨20, -60, 0.12, "#87CEEB"⟩,
  ⟨15, -55, 0.11, "#B0E0E6"⟩,
  ⟨50, -20, 0.12, "#87CEEB"⟩,
  ⟨45, -15, 0.11, "#B0E0E6"⟩,
  ⟨40, -72, 0.13, "#87CEEB"⟩,
  ⟨36, -76, 0.13, "#B0E0E6"⟩,
  ⟨32, -79, 0.13, "#87CEEB"⟩,
  ⟨29, -81, 0.13, "#B0E0E6"⟩,
  ⟨27, -82, 0.12, "#87CEEB"⟩,
  ⟨36, -122, 0.13, "#87CEEB"⟩,
  ⟨32, -117, 0.13, "#B0E0E6"⟩,
  ⟨24, -82, 0.13, "#87CEEB"⟩,
  ⟨19, -81, 0.13, "#B0E0E6"⟩,
  ⟨17, -88, 0.12, "#87CEEB"⟩,
  ⟨11, -85, 0.13, "#B0E0E6"⟩,
  ⟨9, -80, 0.12, "#87CEEB"⟩,
  ⟨-2, -45, 0.13, "#87CEEB"⟩,
  ⟨-6, -35, 0.13, "#B0E0E6"⟩,
  ⟨-10, -38, 0.12, "#87CEEB"⟩,
  ⟨-14, -42, 0.12, "#B0E0E6"⟩,
  ⟨-23, -45, 0.13, "#87CEEB"⟩,
  ⟨52, 4, 0.13, "#87CEEB"⟩,
  ⟨54, 8, 0.13, "#B0E0E6"⟩,
  ⟨56, 10, 0.12, "#87CEEB"⟩,
  ⟨59, 10, 0.13, "#B0E0E6"⟩,
  ⟨43, 5, 0.13, "#87CEEB"⟩,
  ⟨41, 2, 0.13, "#B0E0E6"⟩,
  ⟨38, -9, 0.13, "#87CEEB"⟩,
  ⟨44, 8, 0.13, "#87CEEB"⟩,
  ⟨40, 14, 0.13, "#B0E0E6"⟩
]

/-- Entries 269-308 of the curated candidate catalog `allContinents`
(Earth.tsx lines 593-1015), in source order. -/
def allContinentsPart8 : List Continent := [
  ⟨38, 15, 0.12, "#87CEEB"⟩,
  ⟨37, 23, 0.13, "#B0E0E6"⟩,
  ⟨35, 24, 0.13, "#87CEEB"⟩,
  ⟨12, 3, 0.13, "#87CEEB"⟩,
  ⟨5, 4, 0.13, "#B0E0E6"⟩,
  ⟨-2, 10, 0.13, "#87CEEB"⟩,
  ⟨-6, 12, 0.12, "#B0E0E6"⟩,
  ⟨-26, 28, 0.13, "#87CEEB"⟩,
  ⟨-34, 18, 0.13, "#B0E0E6"⟩,
  ⟨25, 54, 0.13, "#87CEEB"⟩,
  ⟨24, 54, 0.13, "#B0E0E6"⟩,
  ⟨19, 72, 0.13, "#87CEEB"⟩,
  ⟨13, 80, 0.13, "#B0E0E6"⟩,
  ⟨6, 80, 0.13, "#87CEEB"⟩,
  ⟨31, 121, 0.14, "#87CEEB"⟩,
  ⟨35, 129, 0.13, "#B0E0E6"⟩,
  ⟨35, 139, 0.14, "#87CEEB"⟩,
  ⟨14, 121, 0.13, "#87CEEB"⟩,
  ⟨1, 104, 0.13, "#B0E0E6"⟩,
  ⟨-19, 147, 0.13, "#87CEEB"⟩,
  ⟨-23, 151, 0.13, "#B0E0E6"⟩,
  ⟨-28, 153, 0.13, "#87CEEB"⟩,
  ⟨-34, 151, 0.13, "#B0E0E6"⟩,
  ⟨-38, 145, 0.13, "#87CEEB"⟩,
  ⟨-17, 178, 0.13, "#87CEEB"⟩,
  ⟨-21, -159, 0.13, "#B0E0E6"⟩,
  ⟨25, -77, 0.13, "#87CEEB"⟩,
  ⟨18, -66, 0.13, "#B0E0E6"⟩,
  ⟨12, -69, 0.13, "#87CEEB"⟩,
  ⟨55, -3, 0.13, "#87CEEB"⟩,
  ⟨53, -3, 0.13, "#B0E0E6"⟩,
  ⟨48, -4, 0.13, "#87CEEB"⟩,
  ⟨45, -83, 0.13, "#87CEEB"⟩,
  ⟨43, -79, 0.13, "#B0E0E6"⟩,
  ⟨42, -87, 0.13, "#87CEEB"⟩,
  ⟨44, -66, 0.13, "#87CEEB"⟩,
  ⟨41, -71, 0.13, "#B0E0E6"⟩,
  ⟨39, -74, 0.13, "#87CEEB"⟩,
  ⟨30, -87, 0.13, "#87CEEB"⟩,
  ⟨29, -95, 0.13, "#B0E0E6"⟩
]

/-- Entries 309-348 of the curated candidate catalog `allContinents`
(Earth.tsx lines 593-1015), in source order. -/
def allContinentsPart9 : List Continent := [
  ⟨27, -97, 0.13, "#87CEEB"⟩,
  ⟨48, -123, 0.13, "#87CEEB"⟩,
  ⟨46, -124, 0.13, "#B0E0E6"⟩,
  ⟨37, -122, 0.13, "#87CEEB"⟩,
  ⟨16, -88, 0.13, "#87CEEB"⟩,
  ⟨10, -84, 0.13, "#B0E0E6"⟩,
  ⟨8, -80, 0.13, "#87CEEB"⟩,
  ⟨-12, -77, 0.13, "#87CEEB"⟩,
  ⟨-16, -72, 0.13, "#B0E0E6"⟩,
  ⟨-33, -71, 0.13, "#87CEEB"⟩,
  ⟨-36, -73, 0.13, "#B0E0E6"⟩,
  ⟨60, 5, 0.13, "#87CEEB"⟩,
  ⟨58, 6, 0.13, "#B0E0E6"⟩,
  ⟨55, 12, 0.13, "#87CEEB"⟩,
  ⟨57, 11, 0.13, "#B0E0E6"⟩,
  ⟨60, 25, 0.13, "#87CEEB"⟩,
  ⟨42, 3, 0.13, "#87CEEB"⟩,
  ⟨39, 3, 0.13, "#B0E0E6"⟩,
  ⟨36, 5, 0.13, "#87CEEB"⟩,
  ⟨33, 10, 0.13, "#B0E0E6"⟩,
  ⟨32, 34, 0.13, "#87CEEB"⟩,
  ⟨35, 33, 0.13, "#B0E0E6"⟩,
  ⟨15, 38, 0.13, "#87CEEB"⟩,
  ⟨22, 39, 0.13, "#B0E0E6"⟩,
  ⟨-4, 39, 0.13, "#87CEEB"⟩,
  ⟨-6, 39, 0.13, "#B0E0E6"⟩,
  ⟨-26, 32, 0.13, "#87CEEB"⟩,
  ⟨26, 50, 0.13, "#87CEEB"⟩,
  ⟨25, 51, 0.13, "#B0E0E6"⟩,
  ⟨24, 54, 0.13, "#87CEEB"⟩,
  ⟨4, 73, 0.13, "#87CEEB"⟩,
  ⟨-4, 55, 0.13, "#B0E0E6"⟩,
  ⟨-20, 57, 0.13, "#87CEEB"⟩,
  ⟨22, 114, 0.13, "#87CEEB"⟩,
  ⟨22, 120, 0.13, "#B0E0E6"⟩,
  ⟨25, 121, 0.13, "#87CEEB"⟩,
  ⟨13, 100, 0.13, "#87CEEB"⟩,
  ⟨10, 106, 0.13, "#B0E0E6"⟩,
  ⟨3, 101, 0.13, "#87CEEB"⟩,
  ⟨-6, 106, 0.13, "#87CEEB"⟩
]

/-- Entries 349-360 of the curated candidate catalog `allContinents`
(Earth.tsx lines 593-1015), in source order. -/
def allContinentsPart10 : List Continent := [
  ⟨-8, 115, 0.13, "#B0E0E6"⟩,
  ⟨5, 119, 0.13, "#87CEEB"⟩,
  ⟨14, 121, 0.13, "#B0E0E6"⟩,
  ⟨21, -157, 0.13, "#87CEEB"⟩,
  ⟨13, 144, 0.13, "#87CEEB"⟩,
  ⟨7, 134, 0.13, "#B0E0E6"⟩,
  ⟨-12, 130, 0.13, "#87CEEB"⟩,
  ⟨-32, 115, 0.13, "#B0E0E6"⟩,
  ⟨-31, 115, 0.13, "#87CEEB"⟩,
  ⟨28, -16, 0.13, "#87CEEB"⟩,
  ⟨32, -16, 0.13, "#B0E0E6"⟩,
  ⟨38, -28, 0.13, "#87CEEB"⟩
]

/-- The full curated candidate catalog `allContinents` (Earth.tsx lines
593-1015): the concatenation of the parts above, in source order (beach
entries first, then green continents, deserts, and water entries). -/
def allContinents : List Continent :=
  allContinentsPart0 ++ allContinentsPart1 ++ allContinentsPart2 ++ allContinentsPart3 ++ allContinentsPart4 ++ allContinentsPart5 ++
    allContinentsPart6 ++ allContinentsPart7 ++ allContinentsPart8 ++ allContinentsPart9 ++ allContinentsPart10

/-- The regions the Earth component renders: the snow hexagons (which never
pass through the overlap filter) followed by the filtered continents
(Earth.tsx lines 1093-1130, in JSX order). -/
def renderedRegions : List Continent :=
  snowHexagons ++ filterContinents allContinents

/-- Prefix test on character lists (helper for the substring test below). -/
def charsHavePre : List Char → List Char → Bool
  | [], _ => true
  | _ :: _, [] => false
  | a :: pat, b :: s => a == b && charsHavePre pat s

/-- Substring test on character lists: the semantics of the JavaScript
`String.prototype.includes` method. -/
def charsHaveSub : List Char → List Char → Bool
  | pat, [] => pat.isEmpty
  | pat, b :: s => charsHavePre pat (b :: s) || charsHaveSub pat s

/-- `s.includes(pat)` on strings. -/
def strIncludes (s pat : String) : Bool := charsHaveSub pat.toList s.toList

/-- The `type` values `beach | green | water | sand | white` handed to
`onHexagonClick` (the spec biomes beach, forest, water, desert, snow). -/
inductive HexagonType
  | green
  | white
  | sand
  | beach
  | water
  deriving DecidableEq

/-- `isGreen` (Earth.tsx lines 1108-1111): the forest-green palette. -/
def isGreenColor (color : String) : Bool :=
  strIncludes color ("66BB6A") || strIncludes color ("81C784") ||
  strIncludes color ("4CAF50") || strIncludes color ("388E3C") ||
  strIncludes color ("9CCC65") || strIncludes color ("AED581") ||
  strIncludes color ("8BC34A") || strIncludes color ("A5D6A7")

/-- `isBeach` (Earth.tsx line 1112): the pure-yellow beach marker. -/
def isBeachColor (color : String) : Bool := strIncludes color ("FFFF00")

/-- `isWater` (Earth.tsx line 1113): the light-blue water palette. -/
def isWaterColor (color : String) : Bool :=
  strIncludes color ("87CEEB") || strIncludes color ("B0E0E6")

/-- `isSand` (Earth.tsx lines 1114-1115): the desert-tan palette. -/
def isSandColor (color : String) : Bool :=
  strIncludes color ("F4A460") || strIncludes color ("DEB887") ||
  strIncludes color ("D2B48C")

/-- `hexagonType` (Earth.tsx line 1118): beach has priority, then green, then
water, then sand, then white. -/
def classifyColor (color : String) : HexagonType :=
  if isBeachColor color then .beach
  else if isGreenColor color then .green
  else if isWaterColor color then .water
  else if isSandColor color then .sand
  else .white

/-- A `HexagonData` record (Earth.tsx lines 1158-1165). -/
structure HexagonData where
  id : String
  position : Vector3
  vertices : List Vector3
  center : Vector3
  lat : ℝ
  lon : ℝ

/-- The latitude of band `i` in `generateGeodesicHexagonGrid`
(Earth.tsx line 1300): `-90 + (i * 180) / latSteps`. -/
def gridBandLat (latSteps : ℤ) (i : ℕ) : ℝ := -90 + (i * 180) / latSteps

/-- The denominator of the per-band longitude step count
(Earth.tsx line 1301): `hexRadius * 180 * Math.cos(lat * Math.PI / 180)`. -/
def lonStepsDenom (hexRadius lat : ℝ) : ℝ :=
  hexRadius * 180 * Real.cos (lat * π / 180)

/-- `lonSteps` (Earth.tsx line 1301): `Math.floor(360 / lonStepsDenom)`. -/
def lonStepsOf (hexRadius lat : ℝ) : ℤ := ⌊360 / lonStepsDenom hexRadius lat⌋

/-- The clamped vertex latitude (Earth.tsx lines 1314-1319):
`Math.max(-90, Math.min(90, lat + dLat * 180 / Math.PI))` with
`dLat = hexRadiusRad * Math.cos(angle)`, `angle = (Math.PI / 3) * k`, and
`hexRadiusRad = hexRadius` (Earth.tsx line 1294). -/
def hexVertexLat (lat hexRadius : ℝ) (k : ℕ) : ℝ :=
  let angle := (π / 3) * k
  let dLat := hexRadius * Real.cos angle
  max (-90) (min 90 (lat + dLat * 180 / π))

/-- The guarded denominator of the vertex longitude offset
(Earth.tsx line 1317): `Math.max(Math.cos(lat * Math.PI / 180), 0.1)`. -/
def vertexDLonDenom (lat : ℝ) : ℝ := max (Real.cos (lat * π / 180)) 0.1

/-- The vertex longitude (Earth.tsx lines 1314-1320):
`lon + dLon * 180 / Math.PI` with
`dLon = hexRadiusRad * Math.sin(angle) / vertexDLonDenom lat`. -/
def hexVertexLon (lat lon hexRadius : ℝ) (k : ℕ) : ℝ :=
  let angle := (π / 3) * k
  let dLon := hexRadius * Real.sin angle / vertexDLonDenom lat
  lon + dLon * 180 / π

/-- `generateGeodesicHexagonGrid(resolution, hexRadius)` (Earth.tsx lines
1289-1337).  The `resolution` parameter is accepted but, as in the source,
never read.  `latSteps = Math.floor(180 / (hexRadius * 180))`; band `i` runs
from 0 to `latSteps` inclusive; each band has `lonSteps` columns with every
other band offset by half a column; each hexagon carries its six clamped
tangent-plane vertices projected back onto the unit sphere. -/
def generateGeodesicHexagonGrid (resolution hexRadius : ℝ) : List HexagonData :=
  let latSteps : ℤ := ⌊180 / (hexRadius * 180)⌋
  (List.range (latSteps + 1).toNat).flatMap fun (i : ℕ) =>
    let lat := gridBandLat latSteps i
    let lonSteps := lonStepsOf hexRadius lat
    let lonStep : ℝ := 360 / (lonSteps : ℝ)
    let offset : ℝ := (i % 2 : ℕ) * (lonStep / 2)
    (List.range lonSteps.toNat).map fun (j : ℕ) =>
      let lon := -180 + j * lonStep + offset
      let center3D := latLonToVector3 lat lon 1
      { id := "hex-" ++ toString i ++ "-" ++ toString j
        position := center3D
        vertices := (List.range 6).map fun k =>
          latLonToVector3 (hexVertexLat lat hexRadius k) (hexVertexLon lat lon hexRadius k) 1
        center := center3D
        lat := lat
        lon := lon }

/-! Evaluations of the coordinate projector and its inverse. -/

/-- Unfolding of `latLonToVector3` into its three components. -/
lemma latLonToVector3_def (lat lon radius : ℝ) :
    latLonToVector3 lat lon radius =
      ⟨-(radius * Real.sin ((90 - lat) * (π / 180)) * Real.cos ((lon + 180) * (π / 180))),
        radius * Real.cos ((90 - lat) * (π / 180)),
        radius * Real.sin ((90 - lat) * (π / 180)) * Real.sin ((lon + 180) * (π / 180))⟩ := rfl

/-- The projector at the equator / reference meridian: `theta` is `π` there,
so the x component is `+1`. -/
lemma latLon_equator_zero : latLonToVector3 0 0 1 = ⟨1, 0, 0⟩ := by
  rw [latLonToVector3_def,
    show (90 - (0 : ℝ)) * (π / 180) = π / 2 by ring,
    show ((0 : ℝ) + 180) * (π / 180) = π by ring,
    Real.sin_pi_div_two, Real.cos_pi_div_two, Real.sin_pi, Real.cos_pi]
  rw [Vector3.mk.injEq]
  norm_num

/-- The projector at the equator / antimeridian: `theta` is `2π` there. -/
lemma latLon_equator_180 : latLonToVector3 0 180 1 = ⟨-1, 0, 0⟩ := by
  rw [latLonToVector3_def,
    show (90 - (0 : ℝ)) * (π / 180) = π / 2 by ring,
    show ((180 : ℝ) + 180) * (π / 180) = 2 * π by ring,
    Real.sin_pi_div_two, Real.cos_pi_div_two, Real.sin_two_pi, Real.cos_two_pi]
  rw [Vector3.mk.injEq]
  norm_num

/-- The projector at the equator, longitude -90: `theta` is `π / 2` there. -/
lemma latLon_equator_neg90 : latLonToVector3 0 (-90) 1 = ⟨0, 0, 1⟩ := by
  rw [latLonToVector3_def,
    show (90 - (0 : ℝ)) * (π / 180) = π / 2 by ring,
    show ((-90 : ℝ) + 180) * (π / 180) = π / 2 by ring,
    Real.sin_pi_div_two, Real.cos_pi_div_two]
  rw [Vector3.mk.injEq]
  norm_num

/-- The projector at the north pole: `phi` is `0`, so the result is `(0,1,0)`
whatever the longitude argument. -/
lemma latLon_north_pole (lon : ℝ) : latLonToVector3 90 lon 1 = ⟨0, 1, 0⟩ := by
  rw [latLonToVector3_def, show (90 - (90 : ℝ)) * (π / 180) = 0 by ring,
    Real.sin_zero, Real.cos_zero]
  rw [Vector3.mk.injEq]
  norm_num

/-- The JavaScript remainder of 270 by 360. -/
lemma jsMod_270_360 : jsMod 270 360 = 270 := by
  unfold jsMod
  rw [if_pos (by norm_num : (0 : ℝ) ≤ 270 / 360),
    show ⌊(270 : ℝ) / 360⌋ = 0 by rw [Int.floor_eq_zero_iff, Set.mem_Ico]; norm_num]
  norm_num

/-- Arithmetic helper: `π / 2` converted back to degrees is 90. -/
lemma pi_half_to_deg : π / 2 * 180 / π = 90 := by
  field_simp
  ring

/-- The inverse conversion evaluated at the unit z vector: latitude 0 and
longitude 90. -/
lemma vector3ToLatLon_unitZ : vector3ToLatLon ⟨0, 0, 1⟩ = ⟨0, 90⟩ := by
  have hlen : length ⟨0, 0, 1⟩ = 1 := by
    show Real.sqrt ((0 : ℝ) ^ 2 + (0 : ℝ) ^ 2 + (1 : ℝ) ^ 2) = 1
    rw [show (0 : ℝ) ^ 2 + (0 : ℝ) ^ 2 + (1 : ℝ) ^ 2 = 1 by norm_num, Real.sqrt_one]
  have harg : atan2 (1 : ℝ) (-(0 : ℝ)) = π / 2 := by
    unfold atan2
    rw [neg_zero]
    exact Complex.arg_I
  unfold vector3ToLatLon
  dsimp only
  rw [GeoPoint.mk.injEq]
  constructor
  · rw [hlen, div_one, Real.arccos_zero, pi_half_to_deg]
    norm_num
  · rw [harg, pi_half_to_deg, show (90 : ℝ) + 180 = 270 by norm_num, jsMod_270_360]
    norm_num

/-- C1: the projector round trip fails in the code.  At latitude 0 and
longitude -90, `vector3ToLatLon (latLonToVector3 0 (-90) 1)` returns
longitude +90 (the input longitude shifted by 180 and wrapped), not the
original -90; the claimed 1e-6 round-trip tolerance is missed by 180
degrees. -/
theorem C1_roundtrip_failing_input :
    vector3ToLatLon (latLonToVector3 0 (-90) 1) = ⟨0, 90⟩ ∧
    ¬ |(vector3ToLatLon (latLonToVector3 0 (-90) 1)).lon - (-90)| ≤ 1e-6 := by
  have h : vector3ToLatLon (latLonToVector3 0 (-90) 1) = ⟨0, 90⟩ := by
    rw [latLon_equator_neg90, vector3ToLatLon_unitZ]
  refine ⟨h, ?_⟩
  rw [h]
  show ¬ |(90 : ℝ) - -90| ≤ 1e-6
  rw [show (90 : ℝ) - -90 = 180 by norm_num, abs_of_pos (by norm_num : (0 : ℝ) < 180)]
  norm_num

/-- C3 counterexample: `project(0, 0, 1)` has x component exactly +1, not
approximately -1 as the claim states (the error is 2, far beyond 1e-6). -/
theorem C3_equator_x_is_one :
    (latLonToVector3 0 0 1).x = 1 ∧ ¬ |(latLonToVector3 0 0 1).x - (-1)| ≤ 1e-6 := by
  have h : (latLonToVector3 0 0 1).x = 1 := by rw [latLon_equator_zero]
  refine ⟨h, ?_⟩
  rw [h, show (1 : ℝ) - -1 = 2 by norm_num, abs_of_pos (by norm_num : (0 : ℝ) < 2)]
  norm_num

/-- C3 (amended: the equator / reference meridian maps to x = +1, not -1):
`project(0,0,1) = (1,0,0)` exactly, and `project(90,lon,1) = (0,1,0)` exactly
for every longitude, so the north pole maps to +y regardless of the longitude
argument. -/
theorem C3_projection_landmarks :
    latLonToVector3 0 0 1 = ⟨1, 0, 0⟩ ∧ ∀ lon : ℝ, latLonToVector3 90 lon 1 = ⟨0, 1, 0⟩ :=
  ⟨latLon_equator_zero, latLon_north_pole⟩

/-- C4: `latLonToVector3` computes exactly the spec formulas
`x = -r sin(phi) cos(theta)`, `z = r sin(phi) sin(theta)`, `y = r cos(phi)`
with `phi = (90 - lat) * π / 180` and `theta = (lon + 180) * π / 180`. -/
theorem C4_projection_formula (lat lon radius : ℝ) :
    latLonToVector3 lat lon radius =
      ⟨-(radius * Real.sin ((90 - lat) * π / 180) * Real.cos ((lon + 180) * π / 180)),
        radius * Real.cos ((90 - lat) * π / 180),
        radius * Real.sin ((90 - lat) * π / 180) * Real.sin ((lon + 180) * π / 180)⟩ := by
  rw [latLonToVector3_def,
    show (90 - lat) * (π / 180) = (90 - lat) * π / 180 by ring,
    show (lon + 180) * (π / 180) = (lon + 180) * π / 180 by ring]

/-! The overlap filter. -/

/-- A candidate-vs-accepted comparison is exactly the strict distance
inequality on projected centers. -/
lemma tooClose_iff (c e : Continent) :
    areHexagonsTooClose c.lat c.lon c.size e.lat e.lon e.size ↔
      centerDist c e < (c.size + e.size) * 0.9 := Iff.rfl

/-- Negated form of the comparison: survival of one comparison is the
non-strict reverse inequality. -/
lemma not_tooClose_iff (c e : Continent) :
    ¬ areHexagonsTooClose c.lat c.lon c.size e.lat e.lon e.size ↔
      (c.size + e.size) * 0.9 ≤ centerDist c e := by
  rw [tooClose_iff]
  exact not_lt

/-- The center distance is symmetric. -/
lemma centerDist_comm (a b : Continent) : centerDist a b = centerDist b a := by
  unfold centerDist distanceTo
  congr 1
  ring

/-- Filtering a one-longer list is one more `filterStep`. -/
lemma filterContinents_append_single (l : List Continent) (c : Continent) :
    filterContinents (l ++ [c]) = filterStep (filterContinents l) c := by
  unfold filterContinents
  rw [List.foldl_append]
  rfl

/-- A first candidate is always accepted. -/
lemma filterStep_nil (c : Continent) : filterStep [] c = [c] := by
  unfold filterStep
  rw [if_neg]
  · rfl
  · simp

/-- A singleton candidate list filters to itself. -/
lemma filterContinents_single (c : Continent) : filterContinents [c] = [c] := by
  show filterStep [] c = [c]
  exact filterStep_nil c

/-- Evaluation of the filter on a two-candidate list whose second candidate
is not too close to the first. -/
lemma filterContinents_pair (c d : Continent)
    (h : ¬ areHexagonsTooClose d.lat d.lon d.size c.lat c.lon c.size) :
    filterContinents [c, d] = [c, d] := by
  show filterStep (filterStep [] c) d = [c, d]
  rw [filterStep_nil]
  unfold filterStep
  rw [if_neg]
  · rfl
  · intro hex
    obtain ⟨e, he, hcl⟩ := hex
    rw [List.mem_singleton] at he
    subst he
    exact h hcl

/-- The accumulator of the fold only ever grows by appending candidates: the
result is a sublist of the accumulator followed by the input. -/
lemma foldl_filterStep_sublist (l : List Continent) :
    ∀ acc : List Continent, (l.foldl filterStep acc).Sublist (acc ++ l) := by
  induction l with
  | nil =>
    intro acc
    simp
  | cons c l ih =>
    intro acc
    rw [List.foldl_cons]
    refine (ih (filterStep acc c)).trans ?_
    unfold filterStep
    split
    · exact (List.sublist_cons_self c l).append_left acc
    · rw [List.append_assoc, List.singleton_append]

/-- The fold preserves pairwise separation: the accumulator always stays
pairwise at distance at least 0.9 times the size sum. -/
lemma foldl_filterStep_pairwise (l : List Continent) :
    ∀ acc : List Continent,
      acc.Pairwise (fun a b => 0.9 * (a.size + b.size) ≤ centerDist a b) →
      (l.foldl filterStep acc).Pairwise
        (fun a b => 0.9 * (a.size + b.size) ≤ centerDist a b) := by
  induction l with
  | nil =>
    intro acc h
    exact h
  | cons c l ih =>
    intro acc h
    rw [List.foldl_cons]
    refine ih _ ?_
    unfold filterStep
    split
    · exact h
    · rename_i hc
      rw [List.pairwise_append]
      refine ⟨h, by simp, ?_⟩
      intro e he x hx
      rw [List.mem_singleton] at hx
      subst hx
      push_neg at hc
      have h2 := (not_tooClose_iff x e).mp (hc e he)
      show 0.9 * (e.size + x.size) ≤ centerDist e x
      rw [centerDist_comm e x, add_comm e.size]
      linarith

/-- Pairwise separation of the whole filter output. -/
lemma filterContinents_pairwise (l : List Continent) :
    (filterContinents l).Pairwise (fun a b => 0.9 * (a.size + b.size) ≤ centerDist a b) :=
  foldl_filterStep_pairwise l [] List.Pairwise.nil

/-- The separation relation is symmetric. -/
lemma pairSep_symm :
    Symmetric (fun a b : Continent => 0.9 * (a.size + b.size) ≤ centerDist a b) := by
  intro a b h
  show 0.9 * (b.size + a.size) ≤ centerDist b a
  rw [centerDist_comm b a, add_comm b.size]
  exact h

/-- Two equatorial entries 180 degrees of longitude apart project to
antipodal points at Euclidean distance exactly 2. -/
lemma centerDist_antipodal (s1 s2 : ℝ) (c1 c2 : String) :
    centerDist ⟨0, 0, s1, c1⟩ ⟨0, 180, s2, c2⟩ = 2 := by
  unfold centerDist
  dsimp only
  rw [latLon_equator_zero, latLon_equator_180]
  unfold distanceTo
  dsimp only
  rw [show ((1 : ℝ) - -1) ^ 2 + ((0 : ℝ) - 0) ^ 2 + ((0 : ℝ) - 0) ^ 2 = 2 ^ 2 by norm_num,
    Real.sqrt_sq (by norm_num : (0 : ℝ) ≤ 2)]

/-- C2 (amended: the guaranteed separation is non-strict, at least the
threshold, because the code rejects on `distance < minDistance` and therefore
accepts at exact equality): for every input candidate list, every pair of
distinct regions accepted by the curated-mode filter has projected-center
distance at least 0.9 times the sum of their sizes. -/
theorem C2_filter_nonoverlap (l : List Continent) :
    ∀ a ∈ filterContinents l, ∀ b ∈ filterContinents l,
      a ≠ b → 0.9 * (a.size + b.size) ≤ centerDist a b := by
  intro a ha b hb hne
  exact (filterContinents_pairwise l).forall pairSep_symm ha hb hne

/-- C2 counterexample: with two antipodal equatorial candidates of size 10/9
each, the threshold 0.9*(10/9+10/9) is exactly 2 and so is their distance;
both are accepted, and the claimed strict inequality fails for the pair. -/
theorem C2_strict_nonoverlap_fails :
    ¬ ∀ l : List Continent, ∀ a ∈ filterContinents l, ∀ b ∈ filterContinents l,
        a ≠ b → 0.9 * (a.size + b.size) < centerDist a b := by
  intro hclaim
  have heval : filterContinents [⟨0, 0, 10/9, "#66BB6A"⟩, ⟨0, 180, 10/9, "#66BB6A"⟩] =
      [⟨0, 0, 10/9, "#66BB6A"⟩, ⟨0, 180, 10/9, "#66BB6A"⟩] := by
    apply filterContinents_pair
    rw [not_tooClose_iff, centerDist_comm, centerDist_antipodal]
    dsimp only
    norm_num
  have h := hclaim [⟨0, 0, 10/9, "#66BB6A"⟩, ⟨0, 180, 10/9, "#66BB6A"⟩]
    ⟨0, 0, 10/9, "#66BB6A"⟩ (by rw [heval]; simp)
    ⟨0, 180, 10/9, "#66BB6A"⟩ (by rw [heval]; simp)
    (by intro hx; rw [Continent.mk.injEq] at hx; norm_num at hx)
  rw [centerDist_antipodal] at h
  dsimp only at h
  norm_num at h

/-- Witness for the amended C2 theorem: the two antipodal size-1 candidates
are both accepted and their separation 0.9*(1+1) is at most their distance 2. -/
theorem C2_filter_nonoverlap_witness :
    0.9 * ((1 : ℝ) + 1) ≤
      centerDist ⟨0, 0, 1, "#66BB6A"⟩ ⟨0, 180, 1, "#66BB6A"⟩ := by
  have heval : filterContinents [⟨0, 0, 1, "#66BB6A"⟩, ⟨0, 180, 1, "#66BB6A"⟩] =
      [⟨0, 0, 1, "#66BB6A"⟩, ⟨0, 180, 1, "#66BB6A"⟩] := by
    apply filterContinents_pair
    rw [not_tooClose_iff, centerDist_comm, centerDist_antipodal]
    dsimp only
    norm_num
  exact C2_filter_nonoverlap [⟨0, 0, 1, "#66BB6A"⟩, ⟨0, 180, 1, "#66BB6A"⟩]
    ⟨0, 0, 1, "#66BB6A"⟩ (by rw [heval]; simp)
    ⟨0, 180, 1, "#66BB6A"⟩ (by rw [heval]; simp)
    (by intro hx; rw [Continent.mk.injEq] at hx; norm_num at hx)

/-- C5 (amended: a candidate is accepted exactly when its distance to every
previously accepted center is at least the threshold, non-strict, rather
than strictly greater): the filter output is a sublist of the input (accepted
candidates appear in arrival order and are never removed or reconsidered),
and extending the input by one candidate appends it exactly when its
projected center is at distance at least `(sizes sum) * 0.9` from every
previously accepted region — so rejected candidates are never compared
against. -/
theorem C5_greedy_characterization (l : List Continent) (c : Continent) :
    (filterContinents l).Sublist l ∧
    filterContinents (l ++ [c]) =
      filterContinents l ++
        (if ∀ e ∈ filterContinents l, (c.size + e.size) * 0.9 ≤ centerDist c e
         then [c] else []) := by
  constructor
  · simpa using foldl_filterStep_sublist l []
  · rw [filterContinents_append_single]
    unfold filterStep
    by_cases hc : ∀ e ∈ filterContinents l, (c.size + e.size) * 0.9 ≤ centerDist c e
    · rw [if_pos hc, if_neg]
      intro hex
      obtain ⟨e, he, hcl⟩ := hex
      have h1 := (tooClose_iff c e).mp hcl
      have h2 := hc e he
      linarith
    · rw [if_neg hc, if_pos, List.append_nil]
      push_neg at hc
      obtain ⟨e, he, hlt⟩ := hc
      exact ⟨e, he, (tooClose_iff c e).mpr hlt⟩

/-- C5 counterexample: sizes 1 and 11/9 put the acceptance threshold at
exactly 2, which is also the antipodal center distance; the second candidate
is accepted although it is not strictly farther than the threshold from the
previously accepted first candidate, refuting acceptance-iff-strictly-farther. -/
theorem C5_strict_acceptance_fails :
    filterContinents [⟨0, 0, 1, "#4CAF50"⟩, ⟨0, 180, 11/9, "#4CAF50"⟩] =
        [⟨0, 0, 1, "#4CAF50"⟩, ⟨0, 180, 11/9, "#4CAF50"⟩] ∧
    ¬ ((Continent.mk 0 180 (11/9) ("#4CAF50")).size +
          (Continent.mk 0 0 1 ("#4CAF50")).size) * 0.9 <
        centerDist (Continent.mk 0 180 (11/9) ("#4CAF50"))
          (Continent.mk 0 0 1 ("#4CAF50")) := by
  have hd : centerDist (Continent.mk 0 180 (11/9) ("#4CAF50"))
      (Continent.mk 0 0 1 ("#4CAF50")) = 2 := by
    rw [centerDist_comm, centerDist_antipodal]
  constructor
  · apply filterContinents_pair
    rw [not_tooClose_iff, hd]
    dsimp only
    norm_num
  · rw [hd]
    dsimp only
    norm_num

/-- C7 counterexample: a candidate with sizeRadius 0 is not rejected; catalog
construction raises no configuration error (the filter is a total function on
candidate lists), and the malformed region appears in the output set. -/
theorem C7_invalid_size_propagates :
    Continent.mk 0 0 0 ("#66BB6A") ∈ filterContinents [⟨0, 0, 0, "#66BB6A"⟩] ∧
    ¬ 0 < (Continent.mk 0 0 0 ("#66BB6A")).size := by
  constructor
  · rw [filterContinents_single]
    simp
  · dsimp only
    norm_num

/-- C7 (amended: no fail-fast size validation exists in the code; what holds
instead is that the filter never invents or alters candidates, so a region
with nonpositive sizeRadius appears in the output only if one was already in
the input): if every input candidate has positive sizeRadius then so does
every output region. -/
theorem C7_no_size_validation (l : List Continent)
    (h : ∀ c ∈ l, 0 < c.size) :
    ∀ r ∈ filterContinents l, 0 < r.size := by
  intro r hr
  have hsub : (filterContinents l).Sublist l := by
    simpa using foldl_filterStep_sublist l []
  exact h r (hsub.subset hr)

/-- Witness for the amended C7 theorem at a concrete singleton catalog. -/
theorem C7_no_size_validation_witness :
    0 < (Continent.mk 10 20 0.15 ("#66BB6A")).size :=
  C7_no_size_validation [⟨10, 20, 0.15, "#66BB6A"⟩]
    (by
      intro c hc
      rw [List.mem_singleton] at hc
      subst hc
      show (0 : ℝ) < 0.15
      norm_num)
    ⟨10, 20, 0.15, "#66BB6A"⟩
    (by rw [filterContinents_single]; simp)

/-! Biome classification. -/

/-- C6: the biome classification checks the beach marker first, then forest
greens, then water blues, then desert tans, and defaults to snow (white) for
colors matching none; in particular any color string matching both the beach
marker and a water-blue code classifies as beach. -/
theorem C6_classification_order :
    (∀ c : String, isBeachColor c = true → classifyColor c = HexagonType.beach) ∧
    (∀ c : String, isBeachColor c = false → isGreenColor c = true →
      classifyColor c = HexagonType.green) ∧
    (∀ c : String, isBeachColor c = false → isGreenColor c = false →
      isWaterColor c = true → classifyColor c = HexagonType.water) ∧
    (∀ c : String, isBeachColor c = false → isGreenColor c = false →
      isWaterColor c = false → isSandColor c = true →
      classifyColor c = HexagonType.sand) ∧
    (∀ c : String, isBeachColor c = false → isGreenColor c = false →
      isWaterColor c = false → isSandColor c = false →
      classifyColor c = HexagonType.white) ∧
    (∀ c : String, isBeachColor c = true → isWaterColor c = true →
      classifyColor c = HexagonType.beach) := by
  refine ⟨?_, ?_, ?_, ?_, ?_, ?_⟩
  · intro c h
    unfold classifyColor
    rw [if_pos]
    exact h
  · intro c h1 h2
    unfold classifyColor
    rw [if_neg (by rw [h1]; exact Bool.false_ne_true), if_pos]
    exact h2
  · intro c h1 h2 h3
    unfold classifyColor
    rw [if_neg (by rw [h1]; exact Bool.false_ne_true),
      if_neg (by rw [h2]; exact Bool.false_ne_true), if_pos]
    exact h3
  · intro c h1 h2 h3 h4
    unfold classifyColor
    rw [if_neg (by rw [h1]; exact Bool.false_ne_true),
      if_neg (by rw [h2]; exact Bool.false_ne_true),
      if_neg (by rw [h3]; exact Bool.false_ne_true), if_pos]
    exact h4
  · intro c h1 h2 h3 h4
    unfold classifyColor
    rw [if_neg (by rw [h1]; exact Bool.false_ne_true),
      if_neg (by rw [h2]; exact Bool.false_ne_true),
      if_neg (by rw [h3]; exact Bool.false_ne_true),
      if_neg (by rw [h4]; exact Bool.false_ne_true)]
  · intro c h1 _h2
    unfold classifyColor
    rw [if_pos]
    exact h1

/-- Witness for C6: a synthetic color string carrying both the beach marker
and a water-blue code classifies as beach. -/
theorem C6_classification_order_witness :
    classifyColor ("#FFFF00 87CEEB") = HexagonType.beach :=
  C6_classification_order.2.2.2.2.2 ("#FFFF00 87CEEB") (by decide) (by decide)

/-! The geodesic hexagon grid. -/

/-- Clamped vertex latitudes are never below -90. -/
lemma hexVertexLat_ge (lat hexRadius : ℝ) (k : ℕ) :
    -90 ≤ hexVertexLat lat hexRadius k := by
  show -90 ≤ max (-90) (min 90 (lat + hexRadius * Real.cos ((π / 3) * (k : ℝ)) * 180 / π))
  exact le_max_left _ _

/-- Clamped vertex latitudes are never above 90. -/
lemma hexVertexLat_le (lat hexRadius : ℝ) (k : ℕ) :
    hexVertexLat lat hexRadius k ≤ 90 := by
  show max (-90) (min 90 (lat + hexRadius * Real.cos ((π / 3) * (k : ℝ)) * 180 / π)) ≤ 90
  exact max_le (by norm_num) (min_le_left _ _)

/-- C8: every vertex of every hexagon produced by
`generateGeodesicHexagonGrid` is the unit-sphere projection of a clamped
vertex latitude lying within [-90, 90], for every resolution and hexRadius
argument. -/
theorem C8_vertex_latitudes_clamped (resolution hexRadius : ℝ) :
    (generateGeodesicHexagonGrid resolution hexRadius).Forall fun h =>
      h.vertices.Forall fun v =>
        ∃ vlat vlon : ℝ, -90 ≤ vlat ∧ vlat ≤ 90 ∧ v = latLonToVector3 vlat vlon 1 := by
  rw [List.forall_iff_forall_mem]
  intro h hmem
  rw [List.forall_iff_forall_mem]
  intro v hv
  simp only [generateGeodesicHexagonGrid, List.mem_flatMap, List.mem_map] at hmem
  obtain ⟨i, -, j, -, rfl⟩ := hmem
  dsimp only at hv
  rw [List.mem_map] at hv
  obtain ⟨k, -, rfl⟩ := hv
  exact ⟨_, _, hexVertexLat_ge _ _ _, hexVertexLat_le _ _ _, rfl⟩

/-- C9: the latitude bands of `generateGeodesicHexagonGrid` include the exact
poles (band 0 is -90, and with `latSteps = n + 1` band `latSteps` is +90),
where the per-band longitude step-count denominator
`hexRadius * 180 * cos(lat * π / 180)` is exactly zero — the division
computing `lonSteps` has no guard — whereas the 0.1 floor keeps only the
vertex-offset denominator at least 0.1, away from zero, for every latitude. -/
theorem C9_unguarded_pole_division :
    (∀ hexRadius : ℝ, lonStepsDenom hexRadius (-90) = 0 ∧ lonStepsDenom hexRadius 90 = 0) ∧
    (∀ latSteps : ℤ, gridBandLat latSteps 0 = -90) ∧
    (∀ n : ℕ, gridBandLat ((n : ℤ) + 1) (n + 1) = 90) ∧
    (∀ lat : ℝ, 0.1 ≤ vertexDLonDenom lat) := by
  refine ⟨?_, ?_, ?_, ?_⟩
  · intro r
    constructor
    · unfold lonStepsDenom
      rw [show (-90 : ℝ) * π / 180 = -(π / 2) by ring, Real.cos_neg,
        Real.cos_pi_div_two, mul_zero]
    · unfold lonStepsDenom
      rw [show (90 : ℝ) * π / 180 = π / 2 by ring, Real.cos_pi_div_two, mul_zero]
  · intro latSteps
    unfold gridBandLat
    norm_num
  · intro n
    unfold gridBandLat
    have hn : ((n : ℝ) + 1) ≠ 0 := by positivity
    push_cast
    field_simp
    ring
  · intro lat
    unfold vertexDLonDenom
    exact le_max_right _ _

/-! The rendered region set. -/

/-- Two entries on the same longitude: their projected-center distance
depends only on the latitude difference. -/
lemma centerDist_same_lon (lat1 lat2 lon s1 s2 : ℝ) (c1 c2 : String) :
    centerDist ⟨lat1, lon, s1, c1⟩ ⟨lat2, lon, s2, c2⟩ =
      Real.sqrt (2 - 2 * Real.cos ((lat1 - lat2) * (π / 180))) := by
  unfold centerDist
  dsimp only
  rw [latLonToVector3_def, latLonToVector3_def]
  unfold distanceTo
  dsimp only
  congr 1
  rw [show (lat1 - lat2) * (π / 180) =
        (90 - lat2) * (π / 180) - (90 - lat1) * (π / 180) by ring,
    Real.cos_sub]
  have hA := Real.sin_sq_add_cos_sq ((90 - lat1) * (π / 180))
  have hB := Real.sin_sq_add_cos_sq ((90 - lat2) * (π / 180))
  have hT := Real.sin_sq_add_cos_sq ((lon + 180) * (π / 180))
  linear_combination (Real.sin ((90 - lat1) * (π / 180)) -
      Real.sin ((90 - lat2) * (π / 180))) ^ 2 * hT + hA + hB

/-- Numeric bound: the chord for a 5-degree separation is at most 0.234. -/
lemma two_sub_two_cos_five_deg_le : 2 - 2 * Real.cos (5 * (π / 180)) ≤ 0.234 ^ 2 := by
  rw [show (5 : ℝ) * (π / 180) = π / 36 by ring]
  have h2 : 1 - (π / 36) ^ 2 / 2 ≤ Real.cos (π / 36) := Real.one_sub_sq_div_two_le_cos
  have h3 : π < 3.15 := Real.pi_lt_d2
  have h4 : 0 < π := Real.pi_pos
  have h5 : π ^ 2 ≤ 3.15 ^ 2 := by nlinarith
  nlinarith [h2, h5]

/-- The snow hexagon at latitude -75, longitude -180 is generated by the
third polar loop (j = 0, k = 1). -/
lemma snow_neg75_mem :
    Continent.mk (-75) (-180) 0.13 ("#FFFFFF") ∈ snowHexagons := by
  unfold snowHexagons
  refine List.mem_append_right _ ?_
  unfold snowHexagonsSouthB
  rw [List.mem_flatMap]
  refine ⟨0, by decide, ?_⟩
  rw [List.mem_map]
  refine ⟨1, by decide, ?_⟩
  simp only [Continent.mk.injEq]
  norm_num

/-- The snow hexagon at latitude -80, longitude -180 is generated by the
third polar loop (j = 0, k = 2). -/
lemma snow_neg80_mem :
    Continent.mk (-80) (-180) 0.13 ("#FFFFFF") ∈ snowHexagons := by
  unfold snowHexagons
  refine List.mem_append_right _ ?_
  unfold snowHexagonsSouthB
  rw [List.mem_flatMap]
  refine ⟨0, by decide, ?_⟩
  rw [List.mem_map]
  refine ⟨2, by decide, ?_⟩
  simp only [Continent.mk.injEq]
  norm_num

/-- The strict separation relation is symmetric. -/
lemma strictSep_symm :
    Symmetric (fun a b : Continent => 0.9 * (a.size + b.size) < centerDist a b) := by
  intro a b h
  show 0.9 * (b.size + a.size) < centerDist b a
  rw [centerDist_comm b a, add_comm b.size]
  exact h

/-- The two south-pole snow hexagons at latitudes -75 and -80 on longitude
-180 are closer than 0.9 times the sum of their sizes. -/
lemma snow_pair_close :
    centerDist (Continent.mk (-75) (-180) 0.13 ("#FFFFFF"))
        (Continent.mk (-80) (-180) 0.13 ("#FFFFFF")) ≤
      0.9 * ((Continent.mk (-75) (-180) 0.13 ("#FFFFFF")).size +
        (Continent.mk (-80) (-180) 0.13 ("#FFFFFF")).size) := by
  rw [centerDist_same_lon]
  dsimp only
  rw [show ((-75 : ℝ) - -80) = 5 by norm_num]
  calc Real.sqrt (2 - 2 * Real.cos (5 * (π / 180)))
      ≤ Real.sqrt (0.234 ^ 2) := Real.sqrt_le_sqrt two_sub_two_cos_five_deg_le
    _ = 0.234 := Real.sqrt_sq (by norm_num)
    _ ≤ 0.9 * (0.13 + 0.13) := by norm_num

/-- Unfolded distance between two projected unit-sphere centers: the chord
form in the two polar angles and the longitude difference. -/
lemma distanceTo_latLon_formula (lat1 lon1 lat2 lon2 : ℝ) :
    distanceTo (latLonToVector3 lat1 lon1 1) (latLonToVector3 lat2 lon2 1) =
      Real.sqrt (2 - 2 *
        (Real.cos ((90 - lat1) * (π / 180)) * Real.cos ((90 - lat2) * (π / 180)) +
          Real.sin ((90 - lat1) * (π / 180)) * Real.sin ((90 - lat2) * (π / 180)) *
            Real.cos ((lon1 - lon2) * (π / 180)))) := by
  rw [latLonToVector3_def, latLonToVector3_def]
  unfold distanceTo
  dsimp only
  congr 1
  rw [show (lon1 - lon2) * (π / 180) =
        (lon1 + 180) * (π / 180) - (lon2 + 180) * (π / 180) by ring, Real.cos_sub]
  have hA := Real.sin_sq_add_cos_sq ((90 - lat1) * (π / 180))
  have hB := Real.sin_sq_add_cos_sq ((90 - lat2) * (π / 180))
  have hT1 := Real.sin_sq_add_cos_sq ((lon1 + 180) * (π / 180))
  have hT2 := Real.sin_sq_add_cos_sq ((lon2 + 180) * (π / 180))
  linear_combination (Real.sin ((90 - lat1) * (π / 180))) ^ 2 * hT1 +
    (Real.sin ((90 - lat2) * (π / 180))) ^ 2 * hT2 + hA + hB

/-- A comparison survives whenever the cosine of the angular separation is at
most `1 - threshold ^ 2 / 2`. -/
lemma not_tooClose_of_cos_le (lat1 lon1 s1 lat2 lon2 s2 : ℝ)
    (hm : 0 ≤ (s1 + s2) * 0.9)
    (hK : Real.cos ((90 - lat1) * (π / 180)) * Real.cos ((90 - lat2) * (π / 180)) +
        Real.sin ((90 - lat1) * (π / 180)) * Real.sin ((90 - lat2) * (π / 180)) *
          Real.cos ((lon1 - lon2) * (π / 180)) ≤ 1 - ((s1 + s2) * 0.9) ^ 2 / 2) :
    ¬ areHexagonsTooClose lat1 lon1 s1 lat2 lon2 s2 := by
  show ¬ (distanceTo (latLonToVector3 lat1 lon1 1) (latLonToVector3 lat2 lon2 1) <
    (s1 + s2) * 0.9)
  rw [not_lt, distanceTo_latLon_formula]
  have h1 : ((s1 + s2) * 0.9) ^ 2 ≤ 2 - 2 *
      (Real.cos ((90 - lat1) * (π / 180)) * Real.cos ((90 - lat2) * (π / 180)) +
        Real.sin ((90 - lat1) * (π / 180)) * Real.sin ((90 - lat2) * (π / 180)) *
          Real.cos ((lon1 - lon2) * (π / 180))) := by linarith
  have h2 := Real.sqrt_le_sqrt h1
  rw [Real.sqrt_sq hm] at h2
  exact h2

/-- Quartic Taylor upper bound for cosine on [0, 1]. -/
lemma cos_taylor_ub (x : ℝ) (h0 : 0 ≤ x) (h1 : x ≤ 1) :
    Real.cos x ≤ 1 - x ^ 2 / 2 + x ^ 4 * (5 / 96) := by
  have hb := Real.cos_bound (show |x| ≤ 1 by rw [abs_of_nonneg h0]; exact h1)
  rw [abs_of_nonneg h0, abs_le] at hb
  linarith [hb.2]

/-- Quartic Taylor lower bound for cosine on [0, 1]. -/
lemma cos_taylor_lb (x : ℝ) (h0 : 0 ≤ x) (h1 : x ≤ 1) :
    1 - x ^ 2 / 2 - x ^ 4 * (5 / 96) ≤ Real.cos x := by
  have hb := Real.cos_bound (show |x| ≤ 1 by rw [abs_of_nonneg h0]; exact h1)
  rw [abs_of_nonneg h0, abs_le] at hb
  linarith [hb.1]

/-- Quartic Taylor lower bound for sine on [0, 1]. -/
lemma sin_taylor_lb (x : ℝ) (h0 : 0 ≤ x) (h1 : x ≤ 1) :
    x - x ^ 3 / 6 - x ^ 4 * (5 / 96) ≤ Real.sin x := by
  have hb := Real.sin_bound (show |x| ≤ 1 by rw [abs_of_nonneg h0]; exact h1)
  rw [abs_of_nonneg h0, abs_le] at hb
  linarith [hb.1]

/-- Rational bounds for powers of π. -/
lemma pi_sq_lb : 9.869 ≤ π ^ 2 := by
  nlinarith [Real.pi_gt_d4, Real.pi_pos]

/-- Rational upper bound for π squared. -/
lemma pi_sq_ub : π ^ 2 ≤ 9.8697 := by
  nlinarith [Real.pi_lt_d4, Real.pi_pos]

/-- Rational upper bound for π cubed. -/
lemma pi_cube_ub : π ^ 3 ≤ 31.008 := by
  nlinarith [pi_sq_ub, Real.pi_lt_d4, Real.pi_pos, sq_nonneg π]

/-- Rational upper bound for the fourth power of π. -/
lemma pi_quad_ub : π ^ 4 ≤ 97.412 := by
  nlinarith [pi_sq_ub, sq_nonneg π, sq_nonneg (π ^ 2), Real.pi_pos]

/-- Numeric bound: cosine of 22 degrees is at most 0.928. -/
lemma cos22_ub : Real.cos (22 * (π / 180)) ≤ 0.928 := by
  have h0 : (0:ℝ) ≤ 22 * (π / 180) := by positivity
  have h1 : 22 * (π / 180) ≤ 1 := by nlinarith [Real.pi_lt_d4]
  nlinarith [cos_taylor_ub _ h0 h1, pi_sq_lb, pi_quad_ub]

/-- Numeric bound: cosine of 35 degrees is at most 0.821. -/
lemma cos35_ub : Real.cos (35 * (π / 180)) ≤ 0.821 := by
  have h0 : (0:ℝ) ≤ 35 * (π / 180) := by positivity
  have h1 : 35 * (π / 180) ≤ 1 := by nlinarith [Real.pi_lt_d4]
  nlinarith [cos_taylor_ub _ h0 h1, pi_sq_lb, pi_quad_ub]

/-- Numeric bound: cosine of 20 degrees is at least 0.938. -/
lemma cos20_lb : 0.938 ≤ Real.cos (20 * (π / 180)) := by
  have h0 : (0:ℝ) ≤ 20 * (π / 180) := by positivity
  have h1 : 20 * (π / 180) ≤ 1 := by nlinarith [Real.pi_lt_d4]
  nlinarith [cos_taylor_lb _ h0 h1, pi_sq_ub, pi_quad_ub]

/-- Numeric bound: sine of 20 degrees is at least 0.341. -/
lemma sin20_lb : 0.341 ≤ Real.sin (20 * (π / 180)) := by
  have h0 : (0:ℝ) ≤ 20 * (π / 180) := by positivity
  have h1 : 20 * (π / 180) ≤ 1 := by nlinarith [Real.pi_lt_d4]
  nlinarith [sin_taylor_lb _ h0 h1, Real.pi_gt_d4, pi_cube_ub, pi_quad_ub]

/-- Numeric bound: cosine of 5 degrees is at least 0.996. -/
lemma cos5_lb : 0.996 ≤ Real.cos (5 * (π / 180)) := by
  have h : 1 - (5 * (π / 180)) ^ 2 / 2 ≤ Real.cos (5 * (π / 180)) :=
    Real.one_sub_sq_div_two_le_cos
  nlinarith [h, pi_sq_ub]

/-- Numeric lower bound for the square root of 3. -/
lemma sqrt3_lb : 1.732 ≤ Real.sqrt 3 := by
  rw [show (1.732 : ℝ) = Real.sqrt (1.732 ^ 2) from (Real.sqrt_sq (by norm_num)).symm]
  exact Real.sqrt_le_sqrt (by norm_num)

/-- Any angle between 73 and 270 degrees has cosine at most 0.297. -/
lemma cosDeg_le_297 (d : ℝ) (h1 : 73 ≤ d) (h2 : d ≤ 270) :
    Real.cos (d * (π / 180)) ≤ 0.297 := by
  have hpi := Real.pi_pos
  by_cases hd : d ≤ 180
  · have hmono : Real.cos (d * (π / 180)) ≤ Real.cos (73 * (π / 180)) :=
      Real.cos_le_cos_of_nonneg_of_le_pi (by positivity) (by nlinarith) (by nlinarith)
    have h73 : Real.cos (73 * (π / 180)) = Real.sin (17 * (π / 180)) := by
      rw [show (17 : ℝ) * (π / 180) = π / 2 - 73 * (π / 180) by ring,
        Real.sin_pi_div_two_sub]
    have hs : Real.sin (17 * (π / 180)) ≤ 17 * (π / 180) := Real.sin_le (by positivity)
    nlinarith [hmono, hs, Real.pi_lt_d4, h73]
  · have hle : Real.cos (d * (π / 180)) ≤ 0 := by
      apply Real.cos_nonpos_of_pi_div_two_le_of_le
      · nlinarith
      · nlinarith
    linarith

/-- Any candidate at latitude at most 38 with size at most 0.2 is at least 22
degrees of latitude away from the first Asia entry and therefore never too
close to it. -/
lemma asiaClear_low (blat blon bsize : ℝ) (h1 : -90 ≤ blat) (h2 : blat ≤ 38)
    (h3 : 0 ≤ bsize) (h4 : bsize ≤ 0.2) :
    ¬ areHexagonsTooClose 60 95 0.20 blat blon bsize := by
  apply not_tooClose_of_cos_le
  · linarith
  · have hpi := Real.pi_pos
    have hphi0 : 0 ≤ (90 - blat) * (π / 180) := by nlinarith
    have hphipi : (90 - blat) * (π / 180) ≤ π := by nlinarith
    have hsb : 0 ≤ Real.sin ((90 - blat) * (π / 180)) :=
      Real.sin_nonneg_of_nonneg_of_le_pi hphi0 hphipi
    have hsa : 0 ≤ Real.sin ((90 - (60:ℝ)) * (π / 180)) := by
      apply Real.sin_nonneg_of_nonneg_of_le_pi
      · nlinarith
      · nlinarith
    have hΔ : Real.cos ((95 - blon) * (π / 180)) ≤ 1 := Real.cos_le_one _
    have hstep : Real.cos ((90 - (60:ℝ)) * (π / 180)) * Real.cos ((90 - blat) * (π / 180)) +
        Real.sin ((90 - (60:ℝ)) * (π / 180)) * Real.sin ((90 - blat) * (π / 180)) *
          Real.cos ((95 - blon) * (π / 180)) ≤
        Real.cos ((90 - blat) * (π / 180) - (90 - (60:ℝ)) * (π / 180)) := by
      rw [Real.cos_sub]
      nlinarith [mul_nonneg hsa hsb, hΔ]
    have hmono : Real.cos ((90 - blat) * (π / 180) - (90 - (60:ℝ)) * (π / 180)) ≤
        Real.cos (22 * (π / 180)) :=
      Real.cos_le_cos_of_nonneg_of_le_pi (by positivity) (by nlinarith) (by nlinarith)
    nlinarith [hstep, hmono, cos22_ub, h3, h4,
      mul_nonneg (show (0:ℝ) ≤ 0.36 - (0.20 + bsize) * 0.9 by linarith)
        (show (0:ℝ) ≤ 0.36 + (0.20 + bsize) * 0.9 by linarith)]

/-- Any candidate at latitude between 39 and 55 with size at most 0.2 whose
longitude separation from the first Asia entry has cosine at most 0.297 is
never too close to it. -/
lemma asiaClear_high (blat blon bsize : ℝ) (h1 : 39 ≤ blat) (h2 : blat ≤ 55)
    (h3 : 0 ≤ bsize) (h4 : bsize ≤ 0.2)
    (h5 : Real.cos ((95 - blon) * (π / 180)) ≤ 0.297) :
    ¬ areHexagonsTooClose 60 95 0.20 blat blon bsize := by
  apply not_tooClose_of_cos_le
  · linarith
  · have hpi := Real.pi_pos
    have hphi0 : 0 ≤ (90 - blat) * (π / 180) := by nlinarith
    have hphipi : (90 - blat) * (π / 180) ≤ π := by nlinarith
    have hphihalf : (90 - blat) * (π / 180) ≤ π / 2 := by nlinarith
    have hsb0 : 0 ≤ Real.sin ((90 - blat) * (π / 180)) :=
      Real.sin_nonneg_of_nonneg_of_le_pi hphi0 hphipi
    have hsb1 : Real.sin ((90 - blat) * (π / 180)) ≤ 1 := Real.sin_le_one _
    have hcb0 : 0 ≤ Real.cos ((90 - blat) * (π / 180)) :=
      Real.cos_nonneg_of_mem_Icc ⟨by nlinarith, hphihalf⟩
    have hcb : Real.cos ((90 - blat) * (π / 180)) ≤ 0.821 :=
      le_trans (Real.cos_le_cos_of_nonneg_of_le_pi (by positivity) hphipi (by nlinarith))
        cos35_ub
    have hsin30 : Real.sin ((90 - (60:ℝ)) * (π / 180)) = 1 / 2 := by
      rw [show (90 - (60:ℝ)) * (π / 180) = π / 6 by ring, Real.sin_pi_div_six]
    have hcos30 : Real.cos ((90 - (60:ℝ)) * (π / 180)) = Real.sqrt 3 / 2 := by
      rw [show (90 - (60:ℝ)) * (π / 180) = π / 6 by ring, Real.cos_pi_div_six]
    have hΔlb : -1 ≤ Real.cos ((95 - blon) * (π / 180)) := Real.neg_one_le_cos _
    rw [hsin30, hcos30]
    have hs3ub : Real.sqrt 3 ≤ 1.7321 := by
      rw [show (1.7321 : ℝ) = Real.sqrt (1.7321 ^ 2) from (Real.sqrt_sq (by norm_num)).symm]
      exact Real.sqrt_le_sqrt (by norm_num)
    have hs30 : 0 ≤ Real.sqrt 3 := Real.sqrt_nonneg 3
    nlinarith [hcb, hcb0, hsb0, hsb1, h5, hΔlb, hs3ub, hs30, h3, h4,
      mul_nonneg (show (0:ℝ) ≤ 0.36 - (0.20 + bsize) * 0.9 by linarith)
        (show (0:ℝ) ≤ 0.36 + (0.20 + bsize) * 0.9 by linarith)]

/-- The first Asia entry is not too close to any of the 67 candidates that
precede it in the catalog (accepted or not). -/
lemma asia_clear_of_predecessors :
    ∀ e ∈ allContinentsPart0 ++ allContinentsPart1,
      ¬ areHexagonsTooClose (60:ℝ) 95 0.20 e.lat e.lon e.size := by
  intro e he
  rw [List.mem_append] at he
  rcases he with he | he
  · unfold allContinentsPart0 at he
    fin_cases he <;> dsimp only <;>
      first
        | ((apply asiaClear_low <;> norm_num); done)
        | ((apply asiaClear_high <;>
            first
              | (norm_num; done)
              | (apply cosDeg_le_297 <;> norm_num)); done)
  · unfold allContinentsPart1 at he
    fin_cases he <;> dsimp only <;>
      first
        | ((apply asiaClear_low <;> norm_num); done)
        | ((apply asiaClear_high <;>
            first
              | (norm_num; done)
              | (apply cosDeg_le_297 <;> norm_num)); done)

/-- Whatever is already in the accumulator stays in it through the fold. -/
lemma foldl_filterStep_mem (l : List Continent) :
    ∀ acc : List Continent, ∀ a ∈ acc, a ∈ l.foldl filterStep acc := by
  induction l with
  | nil =>
    intro acc a ha
    exact ha
  | cons c l ih =>
    intro acc a ha
    rw [List.foldl_cons]
    apply ih
    unfold filterStep
    split
    · exact ha
    · exact List.mem_append_left _ ha

/-- A candidate far from every candidate preceding it in the input is
accepted: the accepted set at that point is a sublist of the preceding
candidates, and later candidates never remove an accepted region. -/
lemma mem_filter_of_clear (l1 l2 : List Continent) (c : Continent)
    (h : ∀ e ∈ l1, ¬ areHexagonsTooClose c.lat c.lon c.size e.lat e.lon e.size) :
    c ∈ filterContinents (l1 ++ c :: l2) := by
  have hrw : filterContinents (l1 ++ c :: l2) =
      List.foldl filterStep (filterStep (filterContinents l1) c) l2 := by
    unfold filterContinents
    rw [List.foldl_append, List.foldl_cons]
  rw [hrw]
  apply foldl_filterStep_mem
  unfold filterStep
  rw [if_neg]
  · exact List.mem_append_right _ (List.mem_singleton_self c)
  · intro hex
    obtain ⟨e, he, hcl⟩ := hex
    have hsub : (filterContinents l1).Sublist l1 := by
      simpa using foldl_filterStep_sublist l1 []
    exact h e (hsub.subset he) hcl

/-- The catalog split around the first Asia entry. -/
lemma allContinents_split :
    allContinents = (allContinentsPart0 ++ allContinentsPart1) ++
      Continent.mk 60 95 0.20 ("#66BB6A") ::
        (allContinentsPart3 ++ allContinentsPart4 ++ allContinentsPart5 ++
          allContinentsPart6 ++ allContinentsPart7 ++ allContinentsPart8 ++
          allContinentsPart9 ++ allContinentsPart10) := by
  simp only [allContinents, allContinentsPart2, List.append_assoc, List.cons_append,
    List.singleton_append, List.nil_append]

/-- The first Asia entry survives the curated overlap filter. -/
lemma asia_mem_filter :
    Continent.mk 60 95 0.20 ("#66BB6A") ∈ filterContinents allContinents := by
  rw [allContinents_split]
  apply mem_filter_of_clear
  intro e he
  exact asia_clear_of_predecessors e he

/-- The snow hexagon at latitude 70, longitude 90 is generated by the first
polar loop (j = 9, k = 0). -/
lemma snow_70_90_mem :
    Continent.mk 70 90 0.12 ("#FFFFFF") ∈ snowHexagons := by
  unfold snowHexagons
  refine List.mem_append_left _ (List.mem_append_left _ ?_)
  unfold snowHexagonsNorth
  rw [List.mem_flatMap]
  refine ⟨9, by decide, ?_⟩
  rw [List.mem_map]
  refine ⟨0, by decide, ?_⟩
  simp only [Continent.mk.injEq]
  norm_num

/-- The north snow hexagon at (70, 90) and the accepted Asia continent at
(60, 95) are closer than 0.9 times the sum of their sizes. -/
lemma snowAsia_close :
    centerDist (Continent.mk 70 90 0.12 ("#FFFFFF")) (Continent.mk 60 95 0.20 ("#66BB6A")) ≤
      0.9 * ((Continent.mk 70 90 0.12 ("#FFFFFF")).size +
        (Continent.mk 60 95 0.20 ("#66BB6A")).size) := by
  unfold centerDist
  dsimp only
  rw [distanceTo_latLon_formula,
    show ((90:ℝ) - 70) = 20 by norm_num,
    show ((90:ℝ) - 60) = 30 by norm_num,
    show ((90:ℝ) - 95) = -5 by norm_num,
    show ((-5:ℝ)) * (π / 180) = -(5 * (π / 180)) by ring,
    Real.cos_neg,
    show (30:ℝ) * (π / 180) = π / 6 by ring,
    Real.sin_pi_div_six, Real.cos_pi_div_six]
  have hK : (0.96:ℝ) ≤ Real.cos (20 * (π / 180)) * (Real.sqrt 3 / 2) +
      Real.sin (20 * (π / 180)) * (1 / 2) * Real.cos (5 * (π / 180)) := by
    nlinarith [cos20_lb, sin20_lb, cos5_lb, sqrt3_lb]
  have h1 : 2 - 2 * (Real.cos (20 * (π / 180)) * (Real.sqrt 3 / 2) +
      Real.sin (20 * (π / 180)) * (1 / 2) * Real.cos (5 * (π / 180))) ≤ 0.288 ^ 2 := by
    nlinarith [hK]
  calc Real.sqrt (2 - 2 * (Real.cos (20 * (π / 180)) * (Real.sqrt 3 / 2) +
        Real.sin (20 * (π / 180)) * (1 / 2) * Real.cos (5 * (π / 180))))
      ≤ Real.sqrt (0.288 ^ 2) := Real.sqrt_le_sqrt h1
    _ = 0.288 := Real.sqrt_sq (by norm_num)
    _ ≤ 0.9 * (0.12 + 0.20) := by norm_num

/-- C10: the snow hexagons are rendered alongside the filtered continents
without ever passing through the overlap filter (they appear unfiltered, as a
sublist, in the rendered region list), and the full rendered set violates the
pairwise non-overlap invariant, with both kinds of witnessing pairs: the
snow-snow pair at latitudes -75 and -80 on longitude -180, and the
snow-continent pair formed by the north snow hexagon at (70, 90) and the
accepted Asia continent at (60, 95), are each at projected-center distance at
most 0.9 times the sum of their sizes. -/
theorem C10_rendered_set_violates_invariant :
    snowHexagons.Sublist renderedRegions ∧
    (∃ a ∈ snowHexagons, ∃ b ∈ snowHexagons, a ≠ b ∧
      centerDist a b ≤ 0.9 * (a.size + b.size)) ∧
    (∃ a ∈ snowHexagons, ∃ b ∈ filterContinents allContinents,
      centerDist a b ≤ 0.9 * (a.size + b.size)) ∧
    ¬ renderedRegions.Pairwise
        (fun a b => 0.9 * (a.size + b.size) < centerDist a b) := by
  have hne : Continent.mk (-75) (-180) 0.13 ("#FFFFFF") ≠
      Continent.mk (-80) (-180) 0.13 ("#FFFFFF") := by
    intro hx
    rw [Continent.mk.injEq] at hx
    norm_num at hx
  refine ⟨?_, ⟨_, snow_neg75_mem, _, snow_neg80_mem, hne, snow_pair_close⟩,
    ⟨_, snow_70_90_mem, _, asia_mem_filter, snowAsia_close⟩, ?_⟩
  · unfold renderedRegions
    exact List.sublist_append_left _ _
  · intro hp
    have h := hp.forall strictSep_symm
      (by unfold renderedRegions; exact List.mem_append_left _ snow_neg75_mem)
      (by unfold renderedRegions; exact List.mem_append_left _ snow_neg80_mem) hne
    exact absurd h (not_lt.mpr snow_pair_close)

end

end NoahProject
